import Mathlib

/-!
Verification of the geofeed CSV validator (validate_geofeed.py).

The validator reads CSV rows, applies structural and semantic checks to each
row, prints diagnostics, accumulates a global failure flag, and exits 1
exactly when an error-level finding occurred.  This file embeds the script
shallowly: every print statement becomes a constructor of the message type
Msg, the mutable global flag validation_failed becomes an explicitly threaded
Bool, and exceptions escaping a row become an Option PyExc value handled at
file level, mirroring the try/except structure of the script.

The script relies on the Python standard library ipaddress module
(ip_network with strict=True, and Network.subnet_of); those library
functions are embedded here as well, translated from CPython 3.11
ipaddress.py.  The embedding covers all ASCII inputs; IPv6 zone identifiers
(a percent sign suffix) are not modelled, and the detail payload of parse
failures is abstracted to the IpErr type rather than a formatted string.
-/

namespace Geofeed

/-- Characters treated as whitespace by the Python str.strip method, as code
points (the set accepted by str.isspace). -/
def pyIsSpace (c : Char) : Bool :=
  [0x09, 0x0A, 0x0B, 0x0C, 0x0D, 0x1C, 0x1D, 0x1E, 0x1F, 0x20, 0x85, 0xA0,
   0x1680, 0x2000, 0x2001, 0x2002, 0x2003, 0x2004, 0x2005, 0x2006, 0x2007,
   0x2008, 0x2009, 0x200A, 0x2028, 0x2029, 0x202F, 0x205F, 0x3000].contains c.toNat

/-- Models the Python expression s.strip() with no arguments: remove leading
and trailing whitespace. -/
def pyStrip (s : String) : String :=
  ⟨((s.toList.dropWhile pyIsSpace).reverse.dropWhile pyIsSpace).reverse⟩

/-- Models s.startswith applied to a hash mark. -/
def startsWithHash (s : String) : Bool :=
  match s.toList with
  | c :: _ => c == '#'
  | [] => false

def isAsciiDigit (c : Char) : Bool := '0' ≤ c && c ≤ '9'

def isHexDigitPy (c : Char) : Bool :=
  isAsciiDigit c || ('a' ≤ c && c ≤ 'f') || ('A' ≤ c && c ≤ 'F')

def isUpperAZ (c : Char) : Bool := 'A' ≤ c && c ≤ 'Z'

/-- The character class of the tail of the region pattern: ASCII letters and
digits. -/
def isRegionTailChar (c : Char) : Bool :=
  isUpperAZ c || ('a' ≤ c && c ≤ 'z') || isAsciiDigit c

/-- Value of a string of decimal digits (int with base 10). -/
def decValue (l : List Char) : Nat :=
  l.foldl (fun a c => a * 10 + (c.toNat - 48)) 0

def hexDigitVal (c : Char) : Nat :=
  if c.toNat ≤ 57 then c.toNat - 48
  else if c.toNat ≤ 70 then c.toNat - 55
  else c.toNat - 87

/-- Value of a string of hexadecimal digits (int with base 16). -/
def hexValue (l : List Char) : Nat :=
  l.foldl (fun a c => a * 16 + hexDigitVal c) 0

/-- Models the Python expression s.split(sep) for a single-character
separator: no collapsing of adjacent separators, and the split of the empty
string is a list holding one empty string. -/
def splitOnChar (sep : Char) : List Char → List (List Char)
  | [] => [[]]
  | c :: rest =>
    let r := splitOnChar sep rest
    if c == sep then [] :: r
    else
      match r with
      | h :: t => (c :: h) :: t
      | [] => [[c]]

def splitStr (sep : Char) (s : String) : List String :=
  (splitOnChar sep s.toList).map (fun l => ⟨l⟩)

/-- Lowercase hexadecimal rendering of a number, as produced by the Python
format specifier x (used when an embedded IPv4 tail is rewritten into two
hextet strings). -/
def hexStr (n : Nat) : String := ⟨Nat.toDigits 16 n⟩

/-- Models IPv4Address parse_octet: nonempty, ASCII decimal digits only, at
most 3 characters, no leading zero unless the octet is exactly 0, value at
most 255. -/
def parse_octet? (s : String) : Option Nat :=
  let l := s.toList
  if l.isEmpty then none
  else if !(l.all isAsciiDigit) then none
  else if 3 < l.length then none
  else if s != "0" && (l.headD '0' == '0') then none
  else
    let n := decValue l
    if 255 < n then none else some n

/-- Models IPv4Address ip_int_from_string: exactly 4 octets separated by
dots, each one a valid strict octet. -/
def v4_addr? (s : String) : Option Nat :=
  if s.toList.isEmpty then none
  else
    let octets := splitStr '.' s
    if octets.length != 4 then none
    else
      match octets.mapM parse_octet? with
      | some [a, b, c, d] => some (((a * 256 + b) * 256 + c) * 256 + d)
      | _ => none

/-- Models IPv6Address parse_hextet: hexadecimal digits only, between 1 and 4
characters. -/
def parse_hextet? (s : String) : Option Nat :=
  let l := s.toList
  if !(l.all isHexDigitPy) then none
  else if 4 < l.length then none
  else if l.isEmpty then none
  else some (hexValue l)

/-- Indices of empty parts strictly between the two endpoints of the colon
split; at most one such run marker (a double colon) is permitted. -/
def interiorEmpties (parts : List String) : List Nat :=
  (List.range parts.length).filter
    (fun i => decide (0 < i) && decide (i < parts.length - 1) &&
      ((parts.getD i "?") == ""))

/-- Assemble a 128-bit address from the hextet strings before and after the
skipped zero run, mirroring the two accumulation loops of the CPython
implementation. -/
def assembleV6 (his los : List String) : Option Nat :=
  match his.mapM parse_hextet?, los.mapM parse_hextet? with
  | some h, some l =>
    let skipped := 8 - (his.length + los.length)
    some (l.foldl (fun a x => (a <<< 16) ||| x)
      ((h.foldl (fun a x => (a <<< 16) ||| x) 0) <<< (16 * skipped)))
  | _, _ => none

/-- Models IPv6Address ip_int_from_string: colon split, optional embedded
IPv4 tail, at most 9 parts, at most one interior empty part standing for the
skipped zero run, endpoint rules for leading and trailing colons.  Zone
identifiers are not modelled; a percent sign fails hextet parsing. -/
def v6_addr? (s : String) : Option Nat :=
  if s.toList.isEmpty then none
  else
    let parts0 := splitStr ':' s
    if parts0.length < 3 then none
    else
      let lastPart := (parts0.getLast?).getD ""
      let parts? : Option (List String) :=
        if lastPart.toList.contains '.' then
          match v4_addr? lastPart with
          | none => none
          | some v4 =>
            some (parts0.dropLast ++
              [hexStr ((v4 >>> 16) &&& 0xFFFF), hexStr (v4 &&& 0xFFFF)])
        else some parts0
      match parts? with
      | none => none
      | some parts =>
        if 9 < parts.length then none
        else
          match interiorEmpties parts with
          | [] =>
            if parts.length != 8 then none
            else if (parts.headD "?") == "" then none
            else if parts.getLast? == some "" then none
            else assembleV6 parts []
          | [skipIndex] =>
            let headEmpty := (parts.headD "?") == ""
            let lastEmpty := parts.getLast? == some ""
            let hi := if headEmpty then skipIndex - 1 else skipIndex
            let lo0 := parts.length - skipIndex - 1
            let lo := if lastEmpty then lo0 - 1 else lo0
            if headEmpty && decide (hi ≠ 0) then none
            else if lastEmpty && decide (lo ≠ 0) then none
            else if decide (7 < hi + lo) then none
            else assembleV6 (parts.take hi) (parts.drop (parts.length - lo))
          | _ => none

deriving instance DecidableEq for Except

inductive Version where
  | v4
  | v6
deriving DecidableEq

def maxPrefixlen : Version → Nat
  | .v4 => 32
  | .v6 => 128

def allOnes (v : Version) : Nat := 2 ^ maxPrefixlen v - 1

/-- Netmask integer for a given length: ALL_ONES xor (ALL_ONES shifted right
by the length). -/
def netmaskInt (v : Version) (plen : Nat) : Nat :=
  allOnes v ^^^ (allOnes v >>> plen)

def hostmaskInt (v : Version) (plen : Nat) : Nat := allOnes v >>> plen

/-- Models prefix_from_prefix_string: nonempty ASCII digits only, value at
most the maximum length of the family. -/
def prefix_from_prefix_string? (s : String) (maxLen : Nat) : Option Nat :=
  let l := s.toList
  if l.isEmpty then none
  else if !(l.all isAsciiDigit) then none
  else
    let n := decValue l
    if n ≤ maxLen then some n else none

/-- Models count_righthand_zero_bits via structural recursion with the bit
width as fuel. -/
def countTz : Nat → Nat → Nat
  | _, 0 => 0
  | n, f + 1 => if n % 2 == 1 then 0 else 1 + countTz (n / 2) f

def count_righthand_zero_bits (number bits : Nat) : Nat :=
  if number == 0 then bits else min bits (countTz number bits)

/-- Models prefix_from_ip_int: accept only a pattern of ones followed by
zeroes. -/
def prefix_from_ip_int? (ipInt bits : Nat) : Option Nat :=
  let tz := count_righthand_zero_bits ipInt bits
  let plen := bits - tz
  if ipInt >>> tz == 2 ^ plen - 1 then some plen else none

/-- Models the IPv4 make_netmask for a string argument: a prefix length in
digits, else a dotted netmask, else a dotted hostmask (the inverted bits). -/
def v4_make_netmask? (s : String) : Option Nat :=
  match prefix_from_prefix_string? s 32 with
  | some p => some p
  | none =>
    match v4_addr? s with
    | none => none
    | some ipInt =>
      match prefix_from_ip_int? ipInt 32 with
      | some p => some p
      | none => prefix_from_ip_int? (ipInt ^^^ (2 ^ 32 - 1)) 32

/-- Models the IPv6 make_netmask for a string argument: only the prefix
length form in digits is accepted. -/
def v6_make_netmask? (s : String) : Option Nat :=
  prefix_from_prefix_string? s 128

structure Network where
  version : Version
  netAddr : Nat
  plen : Nat
deriving DecidableEq

/-- Family-specific parse failures surfaced by the network constructors:
address or netmask rejections become AddressValueError or NetmaskValueError
(both swallowed by ip_network), while the strict host-bits check raises a
plain ValueError that propagates. -/
inductive NetParseFail where
  | addrOrMaskErr
  | hostBitsSet (v : Version) (addr : Nat) (plen : Nat)
deriving DecidableEq

/-- Models the shared constructor body of IPv4Network and IPv6Network with
strict equal to True: split on at most one slash, parse the address, parse
the netmask (defaulting to the maximum length), then reject when host bits
are set below the mask. -/
def familyNetwork? (ver : Version) (addrOf maskOf : String → Option Nat)
    (s : String) : Except NetParseFail Network :=
  let parts := splitStr '/' s
  if 2 < parts.length then .error .addrOrMaskErr
  else
    match addrOf (parts.headD "") with
    | none => .error .addrOrMaskErr
    | some a =>
      let plen? :=
        if parts.length == 2 then maskOf (parts.getD 1 "")
        else some (maxPrefixlen ver)
      match plen? with
      | none => .error .addrOrMaskErr
      | some p =>
        if a &&& netmaskInt ver p != a then .error (.hostBitsSet ver a p)
        else .ok ⟨ver, a, p⟩

def IPv4Network? (s : String) : Except NetParseFail Network :=
  familyNetwork? .v4 v4_addr? v4_make_netmask? s

def IPv6Network? (s : String) : Except NetParseFail Network :=
  familyNetwork? .v6 v6_addr? v6_make_netmask? s

/-- Parse failure detail surfaced by ip_network: either the generic does not
appear to be a network message, or the strict mode host bits set ValueError
carrying the offending address and length. -/
inductive IpErr where
  | notNetwork
  | hostBits (v : Version) (addr : Nat) (plen : Nat)
deriving DecidableEq

/-- Models ipaddress.ip_network with strict equal to True on a string: try
the IPv4 constructor, let a host-bits ValueError propagate, fall through to
the IPv6 constructor on an address or netmask error, and raise the generic
ValueError when both families reject. -/
def ip_network? (s : String) : Except IpErr Network :=
  match IPv4Network? s with
  | .ok n => .ok n
  | .error (.hostBitsSet v a p) => .error (.hostBits v a p)
  | .error .addrOrMaskErr =>
    match IPv6Network? s with
    | .ok n => .ok n
    | .error (.hostBitsSet v a p) => .error (.hostBits v a p)
    | .error .addrOrMaskErr => .error .notNetwork

/-- Exceptions of the script that reach the per-file generic handler. -/
inductive PyExc where
  | typeErrorVersions (a b : Network)
  | osError (detail : String)
deriving DecidableEq

def broadcastAddr (n : Network) : Nat :=
  n.netAddr ||| hostmaskInt n.version n.plen

/-- Models Network.subnet_of: a TypeError when the versions differ, else
containment by comparing network and broadcast addresses. -/
def subnet_of (a b : Network) : Except PyExc Bool :=
  if a.version ≠ b.version then .error (.typeErrorVersions a b)
  else .ok (decide (b.netAddr ≤ a.netAddr) &&
    decide (broadcastAddr a ≤ broadcastAddr b))

/-- The fixed allowed supernet of the script, 2a0f:1cc0::/29. -/
def SUPERNET : Network := ⟨.v6, 0x2a0f1cc0 <<< 96, 29⟩

/-- Models a match of the anchored country pattern (two uppercase ASCII
letters) on its stripped argument; every call site strips first, so the
dollar-before-final-newline subtlety of the re module cannot arise. -/
def countryCodeMatch (s : String) : Bool :=
  match s.toList with
  | [c1, c2] => isUpperAZ c1 && isUpperAZ c2
  | _ => false

/-- Models a match of the anchored region pattern (two uppercase letters, a
hyphen, one to three ASCII alphanumerics) on its stripped argument. -/
def regionCodeMatch (s : String) : Bool :=
  match s.toList with
  | c1 :: c2 :: '-' :: rest =>
    isUpperAZ c1 && isUpperAZ c2 && decide (1 ≤ rest.length) &&
      decide (rest.length ≤ 3) && rest.all isRegionTailChar
  | _ => false

/-- One diagnostic line printed by the script; each constructor corresponds
to one print statement, carrying the data interpolated into the message. -/
inductive Msg where
  | header (filepath : String)
  | errColumnCount (filepath : String) (linenum ncols : Nat)
  | errBadIp (filepath : String) (linenum : Nat) (ipField : String) (detail : IpErr)
  | errNotWithin (filepath : String) (linenum : Nat) (ipField : String)
  | errCountry (filepath : String) (linenum : Nat) (country : String)
  | errRegion (filepath : String) (linenum : Nat) (region : String)
  | warnCityLong (filepath : String) (linenum : Nat) (city : String)
  | warnCityNoRegion (filepath : String) (linenum : Nat) (cityRaw : String)
  | infoNotFound (filepath : String)
  | fatalFile (filepath : String) (exc : PyExc)
  | infoNoFiles
  | summaryFailed
  | summaryOk
deriving DecidableEq

/-- Error-level findings: the per-row ERROR lines and the per-file FATAL
line.  WARN lines, INFO lines, headers and summary banners are not
error-level. -/
def Msg.isError : Msg → Bool
  | .errColumnCount _ _ _ => true
  | .errBadIp _ _ _ _ => true
  | .errNotWithin _ _ _ => true
  | .errCountry _ _ _ => true
  | .errRegion _ _ _ => true
  | .fatalFile _ _ => true
  | _ => false

/-- Recognizer for the region-format error line, used to state that a row
emits no such diagnostic. -/
def isRegionErr : Msg → Bool
  | .errRegion _ _ _ => true
  | _ => false

/-- The skip test for a row: empty, or the first field starts with a hash
after stripping. -/
def rowSkipped (row : List String) : Bool :=
  row.isEmpty || startsWithHash (pyStrip (row.headD ""))

/-- Remove a single trailing empty field (a trailing delimiter artifact). -/
def trimRow (row : List String) : List String :=
  if row.getLast? = some "" then row.dropLast else row

/-- The column-count test: field count outside 2 to 4 inclusive. -/
def colCountBad (row : List String) : Bool :=
  !(decide (2 ≤ row.length) && decide (row.length ≤ 4))


/-- Subscript access to a row field, with an unreachable default (call sites
are guarded by the column count). -/
def pyGet (row : List String) (i : Nat) : String := row.getD i ""

/-- Steps 4 to 7 of the per-row validation: country code, optional region
code, city length advisory and city-without-region advisory.  Returns the
printed messages in program order and whether an error-level finding among
them set the failure flag. -/
def laterChecks (fp : String) (ln : Nat) (row : List String) : List Msg × Bool :=
  let cc := pyStrip (pyGet row 1)
  let countryBad := !(countryCodeMatch cc)
  let m4 : List Msg := if countryBad then [Msg.errCountry fp ln cc] else []
  let r2 := pyStrip (pyGet row 2)
  let regionBad := decide (3 ≤ row.length) && !(r2 == "") && !(regionCodeMatch r2)
  let m5 : List Msg := if regionBad then [Msg.errRegion fp ln r2] else []
  let city := pyStrip (pyGet row 3)
  let cityPresent := decide (row.length = 4) && !(city == "")
  let m6 : List Msg :=
    if cityPresent && decide (64 < city.length) then [Msg.warnCityLong fp ln city]
    else []
  let m7 : List Msg :=
    if cityPresent && (decide (row.length < 3) || (r2 == "")) then
      [Msg.warnCityNoRegion fp ln (pyGet row 3)]
    else []
  (m4 ++ m5 ++ m6 ++ m7, countryBad || regionBad)

/-- Validation of one CSV row.  Returns the messages printed for the row,
the failure flag after the row (threaded from the incoming flag, mirroring
the mutable global), and an uncaught exception when one escapes the row body
(only the TypeError of a cross-version subnet comparison can). -/
def processRow (fp : String) (ln : Nat) (row0 : List String) (failed : Bool) :
    List Msg × Bool × Option PyExc :=
  if rowSkipped row0 then ([], failed, none)
  else
    let row := trimRow row0
    if colCountBad row then ([Msg.errColumnCount fp ln row.length], true, none)
    else
      let ipStr := pyStrip (pyGet row 0)
      match ip_network? ipStr with
      | .error e => ([Msg.errBadIp fp ln ipStr e], true, none)
      | .ok network =>
        match subnet_of network SUPERNET with
        | .error exc => ([], failed, some exc)
        | .ok isSub =>
          let later := laterChecks fp ln row
          ((if isSub then [] else [Msg.errNotWithin fp ln ipStr]) ++ later.1,
            (failed || !isSub) || later.2, none)

/-- Validation of the rows of one open file, starting at the given line
number.  A row whose body raises stops the file: the generic handler prints
the FATAL line, sets the flag, and the remaining rows are never read. -/
def processRows (fp : String) (ln : Nat) (rs : List (List String))
    (failed : Bool) : List Msg × Bool :=
  match rs with
  | [] => ([], failed)
  | r :: rest =>
    match processRow fp ln r failed with
    | (ms, _, some e) => (ms ++ [Msg.fatalFile fp e], true)
    | (ms, f1, none) =>
      let out := processRows fp (ln + 1) rest f1
      (ms ++ out.1, out.2)

/-- The observable content of one input path: the file is absent
(FileNotFoundError), opening raises some other exception, or it opens and
yields the given parsed CSV rows. -/
inductive FileContent where
  | missing
  | openFailure (e : PyExc)
  | rows (rs : List (List String))

/-- Validation of one input path: header line, then the try body with its
FileNotFoundError and generic except clauses. -/
def processFile (fp : String) (content : FileContent) (failed : Bool) :
    List Msg × Bool :=
  match content with
  | .missing => ([Msg.header fp, Msg.infoNotFound fp], failed)
  | .openFailure e => ([Msg.header fp, Msg.fatalFile fp e], true)
  | .rows rs =>
    let out := processRows fp 1 rs failed
    (Msg.header fp :: out.1, out.2)

/-- The main loop over the input paths, threading the failure flag. -/
def processFiles (fs : String → FileContent) (paths : List String)
    (failed : Bool) : List Msg × Bool :=
  match paths with
  | [] => ([], failed)
  | p :: rest =>
    let out := processFile p (fs p) failed
    let out2 := processFiles fs rest out.2
    (out.1 ++ out2.1, out2.2)

/-- The whole program: with no arguments print the skip message and exit 0
without touching any file; otherwise validate every file starting from a
false flag, print the summary banner, and exit 1 exactly when the flag was
set.  Returns the printed messages and the exit status. -/
def runValidator (fs : String → FileContent) (args : List String) :
    List Msg × Nat :=
  match args with
  | [] => ([Msg.infoNoFiles], 0)
  | _ =>
    let out := processFiles fs args false
    if out.2 then (out.1 ++ [Msg.summaryFailed], 1)
    else (out.1 ++ [Msg.summaryOk], 0)

theorem any_if_single (c : Bool) (m : Msg) :
    (if c then [m] else []).any Msg.isError = (c && Msg.isError m) := by
  cases c <;> simp

theorem laterChecks_flag (fp : String) (ln : Nat) (row : List String) :
    (laterChecks fp ln row).2 = (laterChecks fp ln row).1.any Msg.isError := by
  simp only [laterChecks, List.any_append, any_if_single, Msg.isError]
  simp

theorem processRow_flag (fp : String) (ln : Nat) (r : List String) (f : Bool) :
    (processRow fp ln r f).2.1 = (f || (processRow fp ln r f).1.any Msg.isError) := by
  by_cases h0 : rowSkipped r
  · simp [processRow, h0]
  · by_cases h1 : colCountBad (trimRow r)
    · simp [processRow, h0, h1, Msg.isError]
    · cases h2 : ip_network? (pyStrip (pyGet (trimRow r) 0)) with
      | error e => simp [processRow, h0, h1, h2, Msg.isError]
      | ok n =>
        cases h3 : subnet_of n SUPERNET with
        | error exc => simp [processRow, h0, h1, h2, h3]
        | ok isSub =>
          have hl := laterChecks_flag fp ln (trimRow r)
          cases isSub <;> cases f <;>
            simp [processRow, h0, h1, h2, h3, Msg.isError, List.any_append, ← hl]

theorem processRows_flag (fp : String) (rs : List (List String)) :
    ∀ (ln : Nat) (f : Bool),
      (processRows fp ln rs f).2 = (f || (processRows fp ln rs f).1.any Msg.isError) := by
  induction rs with
  | nil => intro ln f; simp [processRows]
  | cons r rest ih =>
    intro ln f
    have hr := processRow_flag fp ln r f
    rcases hpr : processRow fp ln r f with ⟨ms, f1, exc⟩
    rw [hpr] at hr
    simp only at hr
    cases exc with
    | some e =>
      simp [processRows, hpr, Msg.isError, List.any_append]
    | none =>
      have hrest := ih (ln + 1) f1
      simp only [processRows, hpr, List.any_append]
      rw [hrest, hr, Bool.or_assoc]

theorem processFile_flag (fp : String) (c : FileContent) (f : Bool) :
    (processFile fp c f).2 = (f || (processFile fp c f).1.any Msg.isError) := by
  cases c with
  | missing => simp [processFile, Msg.isError]
  | openFailure e => simp [processFile, Msg.isError]
  | rows rs =>
    have h := processRows_flag fp rs 1 f
    simp [processFile, h, Msg.isError]

theorem processFiles_flag (fs : String → FileContent) (paths : List String) :
    ∀ (f : Bool),
      (processFiles fs paths f).2 = (f || (processFiles fs paths f).1.any Msg.isError) := by
  induction paths with
  | nil => intro f; simp [processFiles]
  | cons p rest ih =>
    intro f
    have h1 := processFile_flag p (fs p) f
    have h2 := ih (processFile p (fs p) f).2
    simp only [processFiles, List.any_append]
    rw [h2, h1, Bool.or_assoc]

theorem processFiles_all_missing (fs : String → FileContent) (paths : List String)
    (f : Bool) (h : ∀ p ∈ paths, fs p = .missing) :
    (processFiles fs paths f).2 = f := by
  induction paths generalizing f with
  | nil => simp [processFiles]
  | cons p rest ih =>
    have hp : fs p = .missing := h p (by simp)
    simp only [processFiles, hp, processFile]
    exact ih f (fun q hq => h q (by simp [hq]))

/-- The parser model agrees with the constant of the script: parsing the
fixed supernet string yields the SUPERNET network value. -/
theorem supernet_parses : ip_network? "2a0f:1cc0::/29" = .ok SUPERNET := rfl

theorem isError_summaryFailed : Msg.isError .summaryFailed = false := rfl

theorem isError_summaryOk : Msg.isError .summaryOk = false := rfl

/-- Claim C3: the exit status is 1 exactly when some error-level finding
(a row ERROR line or a file FATAL line) was printed, and otherwise 0; with
zero file arguments only the skip message is printed and the exit status is
0 without any file being opened. -/
theorem claim3_exit_code (fs : String → FileContent) (args : List String) :
    ((runValidator fs args).2 = 1 ↔ (runValidator fs args).1.any Msg.isError = true) ∧
    ((runValidator fs args).2 = 0 ∨ (runValidator fs args).2 = 1) ∧
    runValidator fs [] = ([Msg.infoNoFiles], 0) := by
  refine ⟨?_, ?_, rfl⟩
  · cases args with
    | nil => simp [runValidator, Msg.isError]
    | cons a rest =>
      have h := processFiles_flag fs (a :: rest) false
      rw [Bool.false_or] at h
      simp only [runValidator]
      cases hf : (processFiles fs (a :: rest) false).2 with
      | false =>
        rw [hf] at h
        simp only [hf, Bool.false_eq_true, if_false, List.any_append,
          List.any_cons, List.any_nil, isError_summaryOk, ← h]
        simp
      | true =>
        rw [hf] at h
        simp only [hf, if_true, List.any_append, List.any_cons, List.any_nil,
          isError_summaryFailed, ← h]
        simp
  · cases args with
    | nil => simp [runValidator]
    | cons a rest =>
      simp only [runValidator]
      by_cases hf : (processFiles fs (a :: rest) false).2 <;> simp [hf]

/-- Claim C4: the failure flag is threaded from an initial false through all
files and rows; it ends true exactly when it started true or an error-level
message was printed, so warnings and informational messages never set it,
and once true it can never be reset. -/
theorem claim4_flag_invariant (fs : String → FileContent) (paths : List String)
    (f : Bool) :
    (processFiles fs paths true).2 = true ∧
    (processFiles fs paths f).2 = (f || (processFiles fs paths f).1.any Msg.isError) := by
  constructor
  · have h := processFiles_flag fs paths true
    simp at h
    exact h
  · exact processFiles_flag fs paths f

/-- Claim C9: a missing input file yields only the header and an
informational skip line and leaves the failure flag unchanged, and a run in
which every named file is missing exits with status 0. -/
theorem claim9_missing_files (fp : String) (f : Bool)
    (fs : String → FileContent) (args : List String)
    (h : ∀ p ∈ args, fs p = .missing) :
    processFile fp .missing f = ([Msg.header fp, Msg.infoNotFound fp], f) ∧
    (runValidator fs args).2 = 0 := by
  refine ⟨rfl, ?_⟩
  cases args with
  | nil => simp [runValidator]
  | cons a rest =>
    have hm := processFiles_all_missing fs (a :: rest) false h
    simp [runValidator, hm]

theorem claim9_witness :
    processFile "a.csv" .missing false =
      ([Msg.header "a.csv", Msg.infoNotFound "a.csv"], false) ∧
    (runValidator (fun _ => FileContent.missing) ["a.csv", "b.csv"]).2 = 0 :=
  claim9_missing_files "a.csv" false (fun _ => FileContent.missing)
    ["a.csv", "b.csv"] (fun _ _ => rfl)

theorem colCountBad_false_iff (row : List String) :
    colCountBad row = false ↔ (2 ≤ row.length ∧ row.length ≤ 4) := by
  simp [colCountBad]

theorem colCountBad_true_iff (row : List String) :
    colCountBad row = true ↔ ¬(2 ≤ row.length ∧ row.length ≤ 4) := by
  simp [colCountBad]
  omega

/-- Claim C6: a non-empty, non-comment row whose field count after the
trailing-empty trim is outside 2 to 4 produces exactly the column-count
error, sets the failure flag, and skips every remaining check of the row. -/
theorem claim6_column_count (fp : String) (ln : Nat) (row0 : List String)
    (f : Bool) (hskip : rowSkipped row0 = false)
    (hcols : ¬(2 ≤ (trimRow row0).length ∧ (trimRow row0).length ≤ 4)) :
    processRow fp ln row0 f =
      ([Msg.errColumnCount fp ln (trimRow row0).length], true, none) := by
  have hc := (colCountBad_true_iff (trimRow row0)).mpr hcols
  simp [processRow, hskip, hc]

theorem claim6_witness :
    processRow "feed.csv" 1 ["a", "b", "c", "d", "e"] false =
      ([Msg.errColumnCount "feed.csv" 1 5], true, none) := by
  have h := claim6_column_count "feed.csv" 1 ["a", "b", "c", "d", "e"] false
    (by decide) (by decide)
  rw [h]
  decide

/-- Claim C5: a row reaching the IP-prefix check whose first field fails to
parse as a CIDR network produces exactly the invalid-IP-prefix error, sets
the failure flag, and skips the containment, country, region and city
checks. -/
theorem claim5_invalid_cidr (fp : String) (ln : Nat) (row0 : List String)
    (f : Bool) (hskip : rowSkipped row0 = false)
    (hcols : 2 ≤ (trimRow row0).length ∧ (trimRow row0).length ≤ 4)
    (e : IpErr)
    (hparse : ip_network? (pyStrip (pyGet (trimRow row0) 0)) = .error e) :
    processRow fp ln row0 f =
      ([Msg.errBadIp fp ln (pyStrip (pyGet (trimRow row0) 0)) e], true, none) := by
  have hc := (colCountBad_false_iff (trimRow row0)).mpr hcols
  simp [processRow, hskip, hc, hparse]

theorem claim5_witness :
    processRow "feed.csv" 1 ["not-an-ip", "us", "zz", "q"] false =
      ([Msg.errBadIp "feed.csv" 1 "not-an-ip" IpErr.notNetwork], true, none) := by
  have h := claim5_invalid_cidr "feed.csv" 1 ["not-an-ip", "us", "zz", "q"] false
    (by decide) (by decide) IpErr.notNetwork rfl
  rw [h]
  decide

/-- Claim C10: CIDR parsing is strict.  A row reaching the IP-prefix check
whose first field parses as an address with host bits set below the mask is
rejected with the invalid-IP-prefix error carrying the host-bits detail, the
failure flag is set, and the remaining checks of the row are skipped. -/
theorem claim10_strict_parse (fp : String) (ln : Nat) (row0 : List String)
    (f : Bool) (hskip : rowSkipped row0 = false)
    (hcols : 2 ≤ (trimRow row0).length ∧ (trimRow row0).length ≤ 4)
    (v : Version) (a p : Nat)
    (hparse : ip_network? (pyStrip (pyGet (trimRow row0) 0)) =
      .error (.hostBits v a p)) :
    processRow fp ln row0 f =
      ([Msg.errBadIp fp ln (pyStrip (pyGet (trimRow row0) 0)) (.hostBits v a p)],
        true, none) := by
  have hc := (colCountBad_false_iff (trimRow row0)).mpr hcols
  simp [processRow, hskip, hc, hparse]

theorem claim10_witness :
    processRow "feed.csv" 1 ["2a0f:1cc0::1/32", "US"] false =
      ([Msg.errBadIp "feed.csv" 1 "2a0f:1cc0::1/32"
          (IpErr.hostBits .v6 (0x2a0f1cc0 <<< 96 + 1) 32)], true, none) := by
  have h := claim10_strict_parse "feed.csv" 1 ["2a0f:1cc0::1/32", "US"] false
    (by decide) (by decide) .v6 (0x2a0f1cc0 <<< 96 + 1) 32 (by decide)
  rw [h]
  decide

/-- Claim C2: a row reaching the containment check whose first field parsed
as an IPv4 network makes the subnet comparison against the IPv6 supernet
raise a version-mismatch TypeError: no containment error is emitted for the
row, and at file level the generic handler prints the FATAL line, sets the
failure flag, and every remaining row of the file is skipped. -/
theorem claim2_ipv4_fatal (fp : String) (ln : Nat) (row0 : List String)
    (rest : List (List String)) (f : Bool)
    (hskip : rowSkipped row0 = false)
    (hcols : 2 ≤ (trimRow row0).length ∧ (trimRow row0).length ≤ 4)
    (net : Network)
    (hparse : ip_network? (pyStrip (pyGet (trimRow row0) 0)) = .ok net)
    (hv4 : net.version = .v4) :
    processRow fp ln row0 f = ([], f, some (.typeErrorVersions net SUPERNET)) ∧
    processRows fp ln (row0 :: rest) f =
      ([Msg.fatalFile fp (.typeErrorVersions net SUPERNET)], true) := by
  have hsub : subnet_of net SUPERNET = .error (.typeErrorVersions net SUPERNET) := by
    simp [subnet_of, hv4, SUPERNET]
  have hc := (colCountBad_false_iff (trimRow row0)).mpr hcols
  have hrow : processRow fp ln row0 f = ([], f, some (.typeErrorVersions net SUPERNET)) := by
    simp [processRow, hskip, hc, hparse, hsub]
  exact ⟨hrow, by simp [processRows, hrow]⟩

theorem claim2_witness :
    processRow "feed.csv" 1 ["192.0.2.0/24", "US"] false =
      ([], false, some (PyExc.typeErrorVersions ⟨.v4, 3221225984, 24⟩ SUPERNET)) ∧
    processRows "feed.csv" 1 [["192.0.2.0/24", "US"], ["2a0f:1cc0::/32", "US"]] false =
      ([Msg.fatalFile "feed.csv" (PyExc.typeErrorVersions ⟨.v4, 3221225984, 24⟩ SUPERNET)],
        true) :=
  claim2_ipv4_fatal "feed.csv" 1 ["192.0.2.0/24", "US"] [["2a0f:1cc0::/32", "US"]]
    false (by decide) (by decide) ⟨.v4, 3221225984, 24⟩ rfl rfl

/-- Claim C1 fails as stated: the row with first field 192.0.2.0/24 parses
as a valid CIDR network that is not within the IPv6 supernet, yet no
containment error is emitted; instead the subnet comparison raises and the
row aborts the file. -/
theorem claim1_counterexample :
    ip_network? "192.0.2.0/24" = .ok ⟨.v4, 3221225984, 24⟩ ∧
    processRow "feed.csv" 1 ["192.0.2.0/24", "US"] false =
      ([], false, some (PyExc.typeErrorVersions ⟨.v4, 3221225984, 24⟩ SUPERNET)) :=
  ⟨rfl, by decide⟩

/-- Claim C1 amended: a row reaching the containment check whose first field
parses as an IPv6 CIDR network (same version as the supernet) that is not a
subnet of the supernet emits the containment error, sets the failure flag,
and still continues to the remaining country, region and city checks. -/
theorem claim1_containment (fp : String) (ln : Nat) (row0 : List String)
    (f : Bool) (hskip : rowSkipped row0 = false)
    (hcols : 2 ≤ (trimRow row0).length ∧ (trimRow row0).length ≤ 4)
    (net : Network)
    (hparse : ip_network? (pyStrip (pyGet (trimRow row0) 0)) = .ok net)
    (hsub : subnet_of net SUPERNET = .ok false) :
    processRow fp ln row0 f =
      (Msg.errNotWithin fp ln (pyStrip (pyGet (trimRow row0) 0)) ::
        (laterChecks fp ln (trimRow row0)).1, true, none) := by
  have hc := (colCountBad_false_iff (trimRow row0)).mpr hcols
  simp [processRow, hskip, hc, hparse, hsub]

theorem claim1_witness :
    processRow "feed.csv" 1 ["2a0f:1cc8::/32", "us"] false =
      ([Msg.errNotWithin "feed.csv" 1 "2a0f:1cc8::/32",
        Msg.errCountry "feed.csv" 1 "us"], true, none) := by
  have h := claim1_containment "feed.csv" 1 ["2a0f:1cc8::/32", "us"] false
    (by decide) (by decide) ⟨.v6, 0x2a0f1cc8 <<< 96, 32⟩ rfl rfl
  rw [h]
  decide

theorem any_if_nil (p : Msg → Bool) (c : Bool) (m : Msg) :
    (if c then ([] : List Msg) else [m]).any p = (!c && p m) := by
  cases c <;> simp

theorem any_if_single_p (p : Msg → Bool) (c : Bool) (m : Msg) :
    (if c then [m] else ([] : List Msg)).any p = (c && p m) := by
  cases c <;> simp

/-- Claim C7: a row whose third field (of the trimmed row) is blank after
stripping never receives a region-format error; a row that reaches the
region check with a non-blank third field not matching the region pattern
receives the region-format error and sets the failure flag. -/
theorem claim7_region (fp : String) (ln : Nat) (row0 : List String) (f : Bool) :
    (pyStrip (pyGet (trimRow row0) 2) = "" →
      (processRow fp ln row0 f).1.any isRegionErr = false) ∧
    (rowSkipped row0 = false →
      2 ≤ (trimRow row0).length ∧ (trimRow row0).length ≤ 4 →
      3 ≤ (trimRow row0).length →
      ∀ net, ip_network? (pyStrip (pyGet (trimRow row0) 0)) = .ok net →
      ∀ b, subnet_of net SUPERNET = .ok b →
      pyStrip (pyGet (trimRow row0) 2) ≠ "" →
      regionCodeMatch (pyStrip (pyGet (trimRow row0) 2)) = false →
      Msg.errRegion fp ln (pyStrip (pyGet (trimRow row0) 2)) ∈
        (processRow fp ln row0 f).1 ∧
      (processRow fp ln row0 f).2.1 = true) := by
  constructor
  · intro h2
    by_cases h0 : rowSkipped row0
    · simp [processRow, h0]
    · by_cases h1 : colCountBad (trimRow row0)
      · simp [processRow, h0, h1, isRegionErr]
      · cases hp : ip_network? (pyStrip (pyGet (trimRow row0) 0)) with
        | error e => simp [processRow, h0, h1, hp, isRegionErr]
        | ok n =>
          cases hs : subnet_of n SUPERNET with
          | error exc => simp [processRow, h0, h1, hp, hs]
          | ok isSub =>
            simp only [processRow, h0, Bool.false_eq_true, if_false, h1, hp, hs,
              laterChecks, h2, List.any_append, any_if_nil, any_if_single_p,
              isRegionErr]
            simp
  · intro h0 hcols h3 net hp b hs h2 hbad
    have hc := (colCountBad_false_iff (trimRow row0)).mpr hcols
    have hrb : (decide (3 ≤ (trimRow row0).length) &&
        !(pyStrip (pyGet (trimRow row0) 2) == "") &&
        !regionCodeMatch (pyStrip (pyGet (trimRow row0) 2))) = true := by
      simp [h3, h2, hbad]
    constructor
    · simp only [processRow, h0, Bool.false_eq_true, if_false, hc, hp, hs,
        laterChecks, hrb, List.mem_append]
      simp
    · simp only [processRow, h0, Bool.false_eq_true, if_false, hc, hp, hs,
        laterChecks, hrb]
      simp

theorem claim7_witness :
    (processRow "feed.csv" 1 ["2a0f:1cc0::/32", "US", "", "Tokyo"] false).1.any
        isRegionErr = false ∧
    Msg.errRegion "feed.csv" 1 "us-ca" ∈
      (processRow "feed.csv" 1 ["2a0f:1cc0::/32", "US", "us-ca"] false).1 ∧
    (processRow "feed.csv" 1 ["2a0f:1cc0::/32", "US", "us-ca"] false).2.1 = true := by
  refine ⟨?_, ?_, ?_⟩
  · exact (claim7_region "feed.csv" 1 ["2a0f:1cc0::/32", "US", "", "Tokyo"] false).1
      (by decide)
  · exact ((claim7_region "feed.csv" 1 ["2a0f:1cc0::/32", "US", "us-ca"] false).2
      (by decide) (by decide) (by decide) ⟨.v6, 0x2a0f1cc0 <<< 96, 32⟩ (by decide)
      true (by decide) (by decide) (by decide)).1
  · exact ((claim7_region "feed.csv" 1 ["2a0f:1cc0::/32", "US", "us-ca"] false).2
      (by decide) (by decide) (by decide) ⟨.v6, 0x2a0f1cc0 <<< 96, 32⟩ (by decide)
      true (by decide) (by decide) (by decide)).2

/-- Claim C8 fails as stated: a row ending in two empty fields is not
validated like the row with one trailing empty field removed, because the
trim pops only a single field.  With first field x the six-field row gets a
column-count error on 5 columns, while the five-field row trims to 4 columns
and instead gets an invalid-IP-prefix error. -/
theorem claim8_counterexample :
    processRow "feed.csv" 1 ["x", "US", "", "", "", ""] false ≠
      processRow "feed.csv" 1 ["x", "US", "", "", ""] false := by decide

/-- Claim C8 amended: a row with at least two fields whose last field is
empty and whose second-to-last field is non-empty is validated identically
to the same row with the trailing empty field removed. -/
theorem claim8_single_trailing_empty (fp : String) (ln : Nat) (f : Bool)
    (r : List String) (v : String) (hlast : r.getLast? = some v) (hv : v ≠ "") :
    processRow fp ln (r ++ [""]) f = processRow fp ln r f := by
  have hne : r ≠ [] := by
    intro h
    rw [h] at hlast
    simp at hlast
  obtain ⟨a, as, rfl⟩ : ∃ a as, r = a :: as := by
    cases r with
    | nil => exact absurd rfl hne
    | cons a as => exact ⟨a, as, rfl⟩
  have hskip : rowSkipped ((a :: as) ++ [""]) = rowSkipped (a :: as) := by
    simp [rowSkipped]
  have ht1 : trimRow ((a :: as) ++ [""]) = a :: as := by
    unfold trimRow
    rw [List.getLast?_concat, if_pos rfl, List.dropLast_concat]
  have ht2 : trimRow (a :: as) = a :: as := by
    unfold trimRow
    rw [hlast, if_neg]
    simp [hv]
  simp only [processRow, hskip, ht1, ht2]

theorem claim8_witness :
    processRow "feed.csv" 1 ["2a0f:1cc0::/32", "US", ""] false =
      processRow "feed.csv" 1 ["2a0f:1cc0::/32", "US"] false :=
  claim8_single_trailing_empty "feed.csv" 1 false ["2a0f:1cc0::/32", "US"] "US"
    rfl (by decide)

end Geofeed
